import Mathlib

/-!
# Verification of the county-choropleth data pipeline

A shallow embedding, in Lean 4, of the algorithmic core of a small GIS
application: batched acquisition of county geometry from a remote ArcGIS-style
service, per-region caching, conversion of projected ring geometry to GeoJSON,
Web-Mercator inverse projection, point-in-polygon hit testing, and statistical
classification of numeric attributes into choropleth classes.

Numbers that the Python code handles as floats are modelled as exact rationals
(`ℚ`) for the discrete algorithms and as reals (`ℝ`) for the transcendental
projection formulas.  Fallible operations (network requests, Python exceptions)
are modelled with `Option`: `none` stands for a raised exception.
-/

namespace HW9

/-! ## Classifier (`ChloroplethGenerator._classify_data`)

`_classify_data(data, method, num_classes)` sorts the data and dispatches on
the method name.  Python's `sorted` is modelled by insertion sort (stability is
irrelevant for plain numbers), `np.percentile(·, p)` (linear interpolation) by
`percentileLinear`, and a raised exception (`np.percentile`, `min`, `max` on an
empty sequence, division by a zero class count) by `none`. -/

/-- Insert into a sorted list, keeping order: model of one step of Python's
`sorted` for plain numeric values. -/
def insertSorted (a : ℚ) : List ℚ → List ℚ
  | [] => [a]
  | b :: bs => if a ≤ b then a :: b :: bs else b :: insertSorted a bs

/-- Model of Python's `sorted(data)` for numeric values. -/
def sortData (xs : List ℚ) : List ℚ := xs.foldr insertSorted []

/-- Positional element access with a default: `xs[i]` on a list known to be
long enough (the default is never exercised on the in-range indices the
classifier uses). -/
def nthOr (d : ℚ) : List ℚ → ℕ → ℚ
  | [], _ => d
  | a :: _, 0 => a
  | _ :: as, n + 1 => nthOr d as n

/-- `np.percentile(xs, p)` with the default linear-interpolation method:
position `p/100 · (n-1)` in the sorted data, linearly interpolating between
the two neighbouring order statistics.  `none` models the exception numpy
raises on an empty input. -/
def percentileLinear (xs : List ℚ) (p : ℚ) : Option ℚ :=
  match xs with
  | [] => none
  | _ :: _ =>
    let s := sortData xs
    let n := s.length
    let pos := p / 100 * ((n : ℚ) - 1)
    let i := (⌊pos⌋).toNat
    let lo := nthOr 0 s i
    let hi := nthOr 0 s (min (i + 1) (n - 1))
    some (lo + (pos - (i : ℚ)) * (hi - lo))

/-- The `for i in range(1, num_classes)` percentile-collection loop of the
Quantile branch, with exception propagation: the loop body appends
`np.percentile(sorted_data, (i/num_classes)*100)`. -/
def collectPercentiles (s : List ℚ) (k : ℕ) : List ℕ → Option (List ℚ)
  | [] => some []
  | i :: rest =>
    match percentileLinear s (((i : ℚ) / (k : ℚ)) * 100), collectPercentiles s k rest with
    | some b, some bs => some (b :: bs)
    | _, _ => none

/-- The `"Quantile"` branch of `_classify_data`: percentile breaks for
`i = 1..num_classes-1`, then `max(sorted_data)` appended. -/
def quantileBreaks (data : List ℚ) (k : ℕ) : Option (List ℚ) :=
  let s := sortData data
  match collectPercentiles s k (List.range' 1 (k - 1)), s.max? with
  | some bs, some m => some (bs ++ [m])
  | _, _ => none

/-- The `"Equal Interval"` branch of `_classify_data`:
`interval = (max - min) / num_classes`, breaks `min + interval·(i+1)` for
`i = 0..num_classes-1`.  `none` models `min`/`max` raising on an empty input
and the `ZeroDivisionError` for a zero class count. -/
def equalIntervalBreaks (data : List ℚ) (k : ℕ) : Option (List ℚ) :=
  let s := sortData data
  match s.min?, s.max? with
  | some mn, some mx =>
    if k = 0 then none
    else
      let interval := (mx - mn) / (k : ℚ)
      some ((List.range k).map (fun i => mn + interval * ((i : ℚ) + 1)))
  | _, _ => none

/-- The `"Natural Breaks (Jenks)"` branch (`_jenks_breaks`): breaks at index
`int((i/num_classes)·n)` of the sorted data for `i = 1..num_classes-1`
(appended only when in range), then `max(sorted_data)` appended.  `none`
models `max` raising on an empty input. -/
def jenksBreaks (data : List ℚ) (k : ℕ) : Option (List ℚ) :=
  let s := sortData data
  let n := s.length
  let bs := (List.range' 1 (k - 1)).filterMap (fun i =>
    let idx := i * n / k
    if idx < n then some (nthOr 0 s idx) else none)
  match s.max? with
  | some m => some (bs ++ [m])
  | none => none

/-- `ChloroplethGenerator._classify_data`: dispatch on the method name, any
unknown name falling through to the Quantile computation. -/
def classify_data (data : List ℚ) (method : String) (k : ℕ) : Option (List ℚ) :=
  if method = "Quantile" then quantileBreaks data k
  else if method = "Equal Interval" then equalIntervalBreaks data k
  else if method = "Natural Breaks (Jenks)" then jenksBreaks data k
  else quantileBreaks data k

/-! ## Point-in-polygon test (`MainApplication._point_in_polygon`)

The Python loop walks edges `(coords[i-1], coords[i % n])` for `i = 1..n`,
i.e. consecutive vertex pairs wrapping from the last vertex back to the first,
toggling an `inside` boolean.  Coordinates are modelled as exact rationals. -/

/-- The edge sequence of the ray-cast loop: consecutive vertex pairs,
wrapping from the last vertex back to the first. -/
def polyEdges : List (ℚ × ℚ) → List ((ℚ × ℚ) × (ℚ × ℚ))
  | [] => []
  | c :: cs => (c :: cs).zip (cs ++ [c])

/-- The toggle condition of one iteration of the ray-cast loop, exactly as
nested in the code: `y > min(p1y,p2y)`, `y <= max(p1y,p2y)`,
`x <= max(p1x,p2x)`, and then `p1x == p2x or x <= xinters` with
`xinters = (y-p1y)*(p2x-p1x)/(p2y-p1y) + p1x` (the `xinters` formula is only
reached when `p1y != p2y`, which the first two tests guarantee). -/
def edgeToggles (x y : ℚ) (e : (ℚ × ℚ) × (ℚ × ℚ)) : Bool :=
  if min e.1.2 e.2.2 < y ∧ y ≤ max e.1.2 e.2.2 ∧ x ≤ max e.1.1 e.2.1 ∧
      (e.1.1 = e.2.1 ∨ x ≤ (y - e.1.2) * (e.2.1 - e.1.1) / (e.2.2 - e.1.2) + e.1.1) then
    true
  else false

/-- `MainApplication._point_in_polygon`: reject rings with fewer than 3
vertices, then a bounding-box prefilter, then the ray-cast toggle loop. -/
def point_in_polygon (x y : ℚ) (polygon_coords : List (ℚ × ℚ)) : Bool :=
  if polygon_coords.length < 3 then false
  else
    let xs := polygon_coords.map Prod.fst
    let ys := polygon_coords.map Prod.snd
    let minX := xs.min?.getD 0
    let maxX := xs.max?.getD 0
    let minY := ys.min?.getD 0
    let maxY := ys.max?.getD 0
    if x < minX ∨ x > maxX ∨ y < minY ∨ y > maxY then false
    else
      (polyEdges polygon_coords).foldl
        (fun inside e => if edgeToggles x y e then !inside else inside) false

/-- The spec's description of one toggle, taken at its word: the point's `y`
lies *strictly between* the edge's y-extremes, and the point's `x` is at or
left of the ray-edge x-intersection, vertical edges (equal x endpoints)
always toggling when the y-test passes. -/
def edgeTogglesSpec (x y : ℚ) (e : (ℚ × ℚ) × (ℚ × ℚ)) : Bool :=
  if min e.1.2 e.2.2 < y ∧ y < max e.1.2 e.2.2 ∧
      (e.1.1 = e.2.1 ∨ x ≤ (y - e.1.2) * (e.2.1 - e.1.1) / (e.2.2 - e.1.2) + e.1.1) then
    true
  else false

/-- The point-in-polygon rule exactly as the spec words it: bounding-box
prefilter, then "inside iff the toggle count is odd" with the spec's toggle
condition `edgeTogglesSpec`. -/
def pointInPolygonSpecRule (x y : ℚ) (polygon_coords : List (ℚ × ℚ)) : Bool :=
  if polygon_coords.length < 3 then false
  else
    let xs := polygon_coords.map Prod.fst
    let ys := polygon_coords.map Prod.snd
    if x < xs.min?.getD 0 ∨ x > xs.max?.getD 0 ∨ y < ys.min?.getD 0 ∨ y > ys.max?.getD 0 then
      false
    else
      (polyEdges polygon_coords).countP (edgeTogglesSpec x y) % 2 == 1

/-- The code's ray-cast loop re-expressed declaratively: inside iff the number
of edges satisfying the code's toggle condition is odd (behind the same
length and bounding-box prefilters). -/
def pointInPolygonParity (x y : ℚ) (polygon_coords : List (ℚ × ℚ)) : Bool :=
  if polygon_coords.length < 3 then false
  else
    let xs := polygon_coords.map Prod.fst
    let ys := polygon_coords.map Prod.snd
    if x < xs.min?.getD 0 ∨ x > xs.max?.getD 0 ∨ y < ys.min?.getD 0 ∨ y > ys.max?.getD 0 then
      false
    else
      (polyEdges polygon_coords).countP (edgeToggles x y) % 2 == 1

/-- The square test ring of the spec: `[(0,0),(0,10),(10,10),(10,0)]`. -/
def squareRing : List (ℚ × ℚ) := [(0, 0), (0, 10), (10, 10), (10, 0)]

/-! ## Batched acquisition (`APIDataManager`)

The network is modelled as an oracle: for each request (a numeric-ID range or
a state-FIPS partition key) and each attempt index, the oracle yields one of
the outcomes the Python code distinguishes.  A response without a `features`
key behaves exactly like one with an empty `features` list, so the two are
identified. -/

/-- Outcome of one HTTP request, as the code distinguishes them:
a well-formed JSON body with a `features` list (possibly empty), a well-formed
body carrying an `error` object, `requests.exceptions.Timeout`,
`requests.exceptions.RequestException`, or any other exception. -/
inductive ApiResp (F : Type) where
  | ok (features : List F)
  | errorField
  | timeout
  | transportError
  | otherError
deriving DecidableEq

/-- Trace of one batch of `load_counties_data`: the final outcome (`some`
features on success, `none` when the batch is marked failed), the back-off
sleeps performed (in seconds), and the attempt indices actually issued. -/
structure BatchTrace (F : Type) where
  outcome : Option (List F)
  sleeps : List ℕ
  attempts : List ℕ
deriving DecidableEq

/-- The retry loop of `load_counties_data`
(`while retry_count < max_retries and not batch_success`, `max_retries = 3`),
started at `retry_count = r`: a non-empty `features` list succeeds; an empty
(or missing) `features` list fails immediately with no retry; an `error`
field retries with `time.sleep(1)` while `retry_count < max_retries - 1`;
timeouts, transport errors and unexpected exceptions retry with
`time.sleep(2)` while attempts remain. -/
def runBatchGo (resp : ℕ → ApiResp F) (r : ℕ) : BatchTrace F :=
  if _h : r < 3 then
    match resp r with
    | .ok fs =>
      if fs.isEmpty then ⟨none, [], [r]⟩ else ⟨some fs, [], [r]⟩
    | .errorField =>
      if r < 2 then
        let rest := runBatchGo resp (r + 1)
        ⟨rest.outcome, 1 :: rest.sleeps, r :: rest.attempts⟩
      else ⟨none, [], [r]⟩
    | .timeout =>
      if r + 1 < 3 then
        let rest := runBatchGo resp (r + 1)
        ⟨rest.outcome, 2 :: rest.sleeps, r :: rest.attempts⟩
      else ⟨none, [], [r]⟩
    | .transportError =>
      if r + 1 < 3 then
        let rest := runBatchGo resp (r + 1)
        ⟨rest.outcome, 2 :: rest.sleeps, r :: rest.attempts⟩
      else ⟨none, [], [r]⟩
    | .otherError =>
      if r + 1 < 3 then
        let rest := runBatchGo resp (r + 1)
        ⟨rest.outcome, 2 :: rest.sleeps, r :: rest.attempts⟩
      else ⟨none, [], [r]⟩
  else ⟨none, [], []⟩
termination_by 3 - r

/-- One whole batch of `load_counties_data`, starting at `retry_count = 0`. -/
def runBatch (resp : ℕ → ApiResp F) : BatchTrace F := runBatchGo resp 0

/-- The numeric-ID ranges generated by
`for batch_start in range(1, max_records + 1, 150)` with
`batch_end = min(batch_start + 150 - 1, max_records)`, from a given start. -/
def batchRangesFrom (total : ℕ) (start : ℕ) : List (ℕ × ℕ) :=
  if h : start ≤ total then
    (start, min (start + 149) total) :: batchRangesFrom total (start + 150)
  else []
termination_by total + 1 - start

/-- All numeric-ID ranges of `load_counties_data` for a given total count. -/
def batchRanges (total : ℕ) : List (ℕ × ℕ) := batchRangesFrom total 1

/-- Success/failure counters kept by both acquisition loops. -/
structure FetchStats where
  succeeded : ℕ
  failed : ℕ
deriving DecidableEq

/-- Result of `load_counties_data`: the returned boolean, the accumulated
feature list, and the batch counters. -/
structure LoadOutcome (F : Type) where
  success : Bool
  features : List F
  stats : FetchStats
deriving DecidableEq

/-- The accumulation shared by both acquisition loops: walk the partitions in
order with an `(all_features, successful, failed)` accumulator; a partition
whose fetch yields `some` features extends `all_features` and counts a
success, a `none` fetch counts a failure and contributes nothing. -/
def collectLoop (g : α → Option (List F)) (l : List α) (acc : List F × ℕ × ℕ) :
    List F × ℕ × ℕ :=
  l.foldl
    (fun acc r =>
      match g r with
      | some fs => (acc.1 ++ fs, acc.2.1 + 1, acc.2.2)
      | none => (acc.1, acc.2.1, acc.2.2 + 1))
    acc

/-- `load_counties_data`, given the total record count reported by the count
query and the network oracle `net` (response per ID range and attempt index):
a zero count raises; otherwise every batch runs through the retry loop,
successful batches extend `all_features` and failed batches are counted;
the call fails exactly when `all_features` ends up empty. -/
def load_counties_data (total : ℕ) (net : ℕ × ℕ → ℕ → ApiResp F) : LoadOutcome F :=
  if total = 0 then ⟨false, [], ⟨0, 0⟩⟩
  else
    let step := collectLoop (fun r => (runBatch (net r)).outcome) (batchRanges total) ([], 0, 0)
    if step.1.isEmpty then ⟨false, [], ⟨step.2.1, step.2.2⟩⟩
    else ⟨true, step.1, ⟨step.2.1, step.2.2⟩⟩

/-! ## Per-region acquisition and cache (`load_counties_for_region`)

`load_counties_for_region(region)` first consults `self._counties_by_region`;
on a miss it derives the region's state-FIPS partition keys from
`self.states_data` and the static `REGIONS` table, issues one request per
key (no retry loop), converts the combined feature list with
`_convert_to_geojson`, and caches the converted collection.  The mutable
manager fields are threaded as an explicit state record; the network oracle
takes the FIPS key and an attempt index (so that the absence of retries is
observable), and the issued requests are recorded in the result. -/

/-- The mutable fields of `APIDataManager` that `load_counties_for_region`
reads and writes: the region cache (an association list standing for the
Python dict), `self.counties_data` and `self._current_region`.  `G` is the
type of converted feature collections. -/
structure MgrState (G : Type) where
  countiesByRegion : List (String × G)
  countiesData : Option G
  currentRegion : Option String
deriving DecidableEq

/-- The environment `load_counties_for_region` runs in: the static `REGIONS`
table (region name to state names), the loaded `self.states_data` as
`(NAME, STATE)` pairs, the `_convert_to_geojson` conversion on the combined
feature list, and the network oracle (response per FIPS key and attempt). -/
structure RegionEnv (F G : Type) where
  regions : List (String × List String)
  statesData : List (String × String)
  conv : List F → G
  net : String → ℕ → ApiResp F

/-- Result of one `load_counties_for_region` call: the returned boolean, the
manager state afterwards, the `successful_states`/`failed_states` counters,
and the network requests issued as `(FIPS key, attempt index)` pairs. -/
structure RegionOutcome (G : Type) where
  success : Bool
  state : MgrState G
  stats : FetchStats
  requests : List (String × ℕ)

/-- `get_states_in_region`: `REGIONS.get(region, set())`. -/
def getStatesInRegion (regions : List (String × List String)) (region : String) :
    List String :=
  (regions.lookup region).getD []

/-- The FIPS-code derivation of `load_counties_for_region`: walk
`states_data['features']`, keep the `STATE` code of every feature whose
`NAME` is in the region, skipping empty codes and Puerto Rico (`72`) / the
U.S. Virgin Islands (`78`). -/
def stateFipsCodes (statesData : List (String × String)) (statesIn : List String) :
    List String :=
  statesData.filterMap (fun f =>
    if f.1 ∈ statesIn ∧ f.2 ≠ "" ∧ f.2 ≠ "72" ∧ f.2 ≠ "78" then some f.2 else none)

/-- How the body of the per-state loop of `load_counties_for_region`
classifies one response: a non-empty `features` list is a success carrying
its features; an `error` field, an empty or missing `features` list, a
timeout, a transport error, and any other exception are all failures. -/
def regionResp : ApiResp F → Option (List F)
  | .ok fs => if fs.isEmpty then none else some fs
  | _ => none

/-- The per-state fetch loop of `load_counties_for_region`: one request per
FIPS key at attempt index 0, each classified by `regionResp`.  There is no
retry. -/
def regionFetchLoop (net : String → ℕ → ApiResp F) (fips : List String) :
    List F × ℕ × ℕ :=
  collectLoop (fun f => regionResp (net f 0)) fips ([], 0, 0)

/-- `load_counties_for_region`.  A cache hit returns the stored collection and
sets `counties_data`/`_current_region` without touching the network.  On a
miss, an empty state set or empty FIPS list raises (returned as failure with
the state unchanged); otherwise the per-state loop runs, a completely empty
harvest raises (failure, state unchanged), and a non-empty harvest is
converted, stored in the cache under the region key, and returned as
success. -/
def load_counties_for_region (env : RegionEnv F G) (st : MgrState G)
    (region : String) : RegionOutcome G :=
  match st.countiesByRegion.lookup region with
  | some fc =>
    ⟨true, { st with countiesData := some fc, currentRegion := some region }, ⟨0, 0⟩, []⟩
  | none =>
    let statesIn := getStatesInRegion env.regions region
    if statesIn.isEmpty then ⟨false, st, ⟨0, 0⟩, []⟩
    else
      let fips := stateFipsCodes env.statesData statesIn
      if fips.isEmpty then ⟨false, st, ⟨0, 0⟩, []⟩
      else
        let step := regionFetchLoop env.net fips
        let reqs := fips.map (fun f => (f, 0))
        if step.1.isEmpty then ⟨false, st, ⟨step.2.1, step.2.2⟩, reqs⟩
        else
          let fc := env.conv step.1
          ⟨true,
            ⟨st.countiesByRegion ++ [(region, fc)], some fc, some region⟩,
            ⟨step.2.1, step.2.2⟩, reqs⟩

/-- The response kinds the retry loop of `load_counties_data` reacts to by
retrying: everything except a well-formed `features` response (an `error`
field, a timeout, a transport error, an unexpected exception). -/
def retryable : ApiResp F → Bool
  | .ok _ => false
  | _ => true

/-- A fresh manager: empty region cache, no counties loaded. -/
def mgr0 : MgrState (List ℕ) := ⟨[], none, none⟩

/-- Test fixture: a one-state region whose only request succeeds. -/
def okEnv : RegionEnv ℕ (List ℕ) :=
  ⟨[("West", ["California"])], [("California", "06")], id, fun _ _ => .ok [7]⟩

/-- Test fixture: a two-state region where California's request succeeds and
Washington's times out. -/
def mixedEnv : RegionEnv ℕ (List ℕ) :=
  ⟨[("West", ["California", "Washington"])],
    [("California", "06"), ("Washington", "53")], id,
    fun f _ => if f = "06" then .ok [7] else .timeout⟩

/-- Test fixture: a one-state region whose request times out on the first
attempt and would succeed on any later attempt. -/
def retryEnv : RegionEnv ℕ (List ℕ) :=
  ⟨[("West", ["California"])], [("California", "06")], id,
    fun _ n => if n = 0 then .timeout else .ok [7]⟩

/-! ## Geometry conversion (`_convert_arcgis_geometry_to_geojson`)

The ring-to-geometry policy.  The per-point map projection is abstracted as
the function argument `proj` (its concrete formula is `_web_mercator_to_latlon`,
modelled separately below over `ℝ`); the policy under scrutiny is independent
of it.  `none` in the input models an ArcGIS geometry that is absent or has
no `rings` key. -/

/-- A GeoJSON geometry as the converter produces it: `Polygon` coordinates are
a list of rings, `MultiPolygon` coordinates a list of single-ring polygon
coordinate lists. -/
inductive GeoGeometry (P : Type) where
  | polygon (coords : List (List P))
  | multiPolygon (coords : List (List (List P)))
deriving DecidableEq

/-- `_convert_arcgis_geometry_to_geojson`: missing geometry or missing
`rings` becomes an empty `Polygon`; every ring is projected pointwise; a
single converted ring is emitted as a `Polygon` unfiltered; otherwise rings
with at least 4 points are each wrapped as a single-ring polygon, and the
result is a `Polygon` when exactly one survives, else a `MultiPolygon`. -/
def convert_arcgis_geometry_to_geojson (proj : P → Q)
    (arcgisRings : Option (List (List P))) : GeoGeometry Q :=
  match arcgisRings with
  | none => .polygon []
  | some rings =>
    let convertedRings := rings.map (fun ring => ring.map proj)
    if convertedRings.length = 1 then .polygon convertedRings
    else
      let polygons := convertedRings.filterMap
        (fun ring => if 4 ≤ ring.length then some [ring] else none)
      if polygons.length = 1 then .polygon (polygons.getD 0 [])
      else .multiPolygon polygons

/-! ## Web-Mercator inverse projection (`_web_mercator_to_latlon`)

Modelled over the reals: the Python floats compute approximations of these
exact formulas. -/

/-- The sphere radius used by the projection, in meters. -/
def earthRadius : ℝ := 6378137

/-- `_web_mercator_to_latlon`: `lon = (x/R)·(180/π)`,
`lat = (2·atan(exp(y/R)) − π/2)·(180/π)`, returned as `(lon, lat)`. -/
noncomputable def web_mercator_to_latlon (x y : ℝ) : ℝ × ℝ :=
  ((x / earthRadius) * (180 / Real.pi),
   (2 * Real.arctan (Real.exp (y / earthRadius)) - Real.pi / 2) * (180 / Real.pi))

/-! ## Helper lemmas -/

/-- The numeric-ID ranges starting at `start` cover `[start, total]` exactly,
in order: concatenating the closed ranges reproduces the integer interval. -/
theorem batchRangesFrom_cover (total : ℕ) :
    ∀ fuel start, total + 1 - start ≤ fuel →
      (batchRangesFrom total start).flatMap (fun r => List.range' r.1 (r.2 + 1 - r.1)) =
        List.range' start (total + 1 - start) := by
  intro fuel
  induction fuel with
  | zero =>
    intro start hle
    rw [batchRangesFrom, dif_neg (by omega)]
    have h0 : total + 1 - start = 0 := by omega
    simp [h0]
  | succ fuel ih =>
    intro start hle
    rw [batchRangesFrom]
    by_cases h : start ≤ total
    · rw [dif_pos h]
      rw [List.flatMap_cons, ih (start + 150) (by omega)]
      rcases le_or_lt (start + 150) total with h2 | h2
      · have hmin : min (start + 149) total = start + 149 := by omega
        have hw : start + 149 + 1 - start = 150 := by omega
        rw [hmin, hw]
        have happ := List.range'_append start 150 (total + 1 - (start + 150)) 1
        have h150 : start + 1 * 150 = start + 150 := by omega
        have hsum : total + 1 - (start + 150) + 150 = total + 1 - start := by omega
        rw [h150, hsum] at happ
        exact happ
      · have hmin : min (start + 149) total = total := by omega
        have h0 : total + 1 - (start + 150) = 0 := by omega
        rw [hmin, h0]
        simp
    · rw [dif_neg h]
      have h0 : total + 1 - start = 0 := by omega
      simp [h0]

/-- Every generated range sits inside `[start, total]`, is non-empty, and ends
at `min (lo + 149) total`. -/
theorem batchRangesFrom_mem (total : ℕ) :
    ∀ fuel start r, total + 1 - start ≤ fuel → r ∈ batchRangesFrom total start →
      start ≤ r.1 ∧ r.1 ≤ r.2 ∧ r.2 = min (r.1 + 149) total := by
  intro fuel
  induction fuel with
  | zero =>
    intro start r hle hr
    rw [batchRangesFrom, dif_neg (by omega)] at hr
    cases hr
  | succ fuel ih =>
    intro start r hle hr
    rw [batchRangesFrom] at hr
    by_cases h : start ≤ total
    · rw [dif_pos h] at hr
      rcases List.mem_cons.mp hr with hr | hr
      · subst hr
        refine ⟨le_refl _, ?_, rfl⟩
        simp only [le_min_iff]
        omega
      · have := ih (start + 150) r (by omega) hr
        exact ⟨by omega, this.2.1, this.2.2⟩
    · rw [dif_neg h] at hr
      cases hr

/-- Unrolling the shared accumulation loop: the harvested features are the
concatenation of the successful partitions' features, and the counters add
the numbers of successful and failed partitions. -/
theorem collectLoop_eq (g : α → Option (List F)) :
    ∀ (l : List α) (fs : List F) (s t : ℕ),
      collectLoop g l (fs, s, t) =
        (fs ++ (l.filterMap g).flatten,
          s + l.countP (fun r => (g r).isSome),
          t + l.countP (fun r => (g r).isNone)) := by
  intro l
  induction l with
  | nil => intro fs s t; simp [collectLoop]
  | cons a l ih =>
    intro fs s t
    rcases hg : g a with _ | xs
    · have step : collectLoop g (a :: l) (fs, s, t) = collectLoop g l (fs, s, t + 1) := by
        simp [collectLoop, hg]
      rw [step, ih]
      simp [List.countP_cons, List.filterMap_cons, hg, Option.isSome, Option.isNone]
      omega
    · have step : collectLoop g (a :: l) (fs, s, t) = collectLoop g l (fs ++ xs, s + 1, t) := by
        simp [collectLoop, hg]
      rw [step, ih]
      simp [List.countP_cons, List.filterMap_cons, hg, Option.isSome, Option.isNone]
      omega

/-- Looking a key up in an association list extended on the right, when the
key is absent from the original list, finds the new entry. -/
theorem lookup_append_of_none {G : Type} (key : String) (fc : G) :
    ∀ l : List (String × G), l.lookup key = none →
      (l ++ [(key, fc)]).lookup key = some fc := by
  intro l
  induction l with
  | nil => intro _; simp [List.lookup]
  | cons a l ih =>
    intro hnone
    rw [List.cons_append, List.lookup]
    rw [List.lookup] at hnone
    rcases hbeq : (key == a.1) with _ | _
    · rw [hbeq] at hnone
      exact ih hnone
    · rw [hbeq] at hnone
      cases hnone

/-- A fold that conditionally negates a boolean computes the exclusive-or of
the seed with the parity of the number of passing elements. -/
theorem foldl_toggle (p : α → Bool) :
    ∀ (l : List α) (b : Bool),
      l.foldl (fun inside e => if p e then !inside else inside) b =
        (b != (l.countP p % 2 == 1)) := by
  intro l
  induction l with
  | nil => intro b; cases b <;> simp
  | cons a l ih =>
    intro b
    rw [List.foldl_cons, List.countP_cons]
    rcases hp : p a with _ | _
    · simp only [hp, Bool.false_eq_true, if_false, ih]
      simp
    · simp only [hp, if_true, ih b.not]
      have hmod : ((l.countP p + 1) % 2 == 1) = !(l.countP p % 2 == 1) := by
        rcases Nat.mod_two_eq_zero_or_one (l.countP p) with h | h <;>
          simp [Nat.add_mod, h]
      rw [hmod]
      cases b <;> cases hc : (l.countP p % 2 == 1) <;> simp

/-- On a cache miss, `load_counties_for_region` unfolds to its if-chain:
empty state set or empty FIPS list fail untouched, an empty harvest fails
with the counters reported, and a non-empty harvest converts, caches and
succeeds. -/
theorem region_load_miss_eq {F G : Type} (env : RegionEnv F G) (st : MgrState G)
    (region : String) (hmiss : st.countiesByRegion.lookup region = none) :
    load_counties_for_region env st region =
      (if (getStatesInRegion env.regions region).isEmpty = true then
        ⟨false, st, ⟨0, 0⟩, []⟩
      else if (stateFipsCodes env.statesData
          (getStatesInRegion env.regions region)).isEmpty = true then
        ⟨false, st, ⟨0, 0⟩, []⟩
      else if (regionFetchLoop env.net (stateFipsCodes env.statesData
          (getStatesInRegion env.regions region))).1.isEmpty = true then
        ⟨false, st,
          ⟨(regionFetchLoop env.net (stateFipsCodes env.statesData
              (getStatesInRegion env.regions region))).2.1,
            (regionFetchLoop env.net (stateFipsCodes env.statesData
              (getStatesInRegion env.regions region))).2.2⟩,
          (stateFipsCodes env.statesData (getStatesInRegion env.regions region)).map
            (fun f => (f, 0))⟩
      else
        ⟨true,
          ⟨st.countiesByRegion ++
              [(region, env.conv (regionFetchLoop env.net (stateFipsCodes env.statesData
                (getStatesInRegion env.regions region))).1)],
            some (env.conv (regionFetchLoop env.net (stateFipsCodes env.statesData
              (getStatesInRegion env.regions region))).1),
            some region⟩,
          ⟨(regionFetchLoop env.net (stateFipsCodes env.statesData
              (getStatesInRegion env.regions region))).2.1,
            (regionFetchLoop env.net (stateFipsCodes env.statesData
              (getStatesInRegion env.regions region))).2.2⟩,
          (stateFipsCodes env.statesData (getStatesInRegion env.regions region)).map
            (fun f => (f, 0))⟩) := by
  rw [load_counties_for_region, hmiss]

/-- A cache hit returns the stored collection, issuing no request. -/
theorem region_load_hit_eq {F G : Type} (env : RegionEnv F G) (st : MgrState G)
    (region : String) (fc : G) (hhit : st.countiesByRegion.lookup region = some fc) :
    load_counties_for_region env st region =
      ⟨true, { st with countiesData := some fc, currentRegion := some region },
        ⟨0, 0⟩, []⟩ := by
  rw [load_counties_for_region, hhit]

/-- Wrapping each kept ring as a single-ring polygon commutes with the
filtering that drops degenerate rings. -/
theorem filterMap_wrap {Q : Type} :
    ∀ l : List (List Q),
      l.filterMap (fun ring => if 4 ≤ ring.length then some [ring] else none) =
        (l.filter (fun ring => decide (4 ≤ ring.length))).map (fun ring => [ring]) := by
  intro l
  induction l with
  | nil => simp
  | cons a l ih =>
    by_cases h : 4 ≤ a.length
    · simp [List.filterMap_cons, List.filter_cons, h, ih]
    · simp [List.filterMap_cons, List.filter_cons, h, ih]

/-! ## The claims -/

/-- C2: the numeric-ID ranges of `load_counties_data` exactly partition
`[1, totalCount]` into consecutive ranges of batch size 150 with the last
range truncated at the total — no gaps, no overlap (concatenating the ranges
reproduces the interval `[1, totalCount]` in order) — and for
`totalCount = 320` the ranges are exactly `[1,150], [151,300], [301,320]`. -/
theorem C2_numeric_id_ranges_partition :
    (∀ total : ℕ,
      (batchRanges total).flatMap (fun r => List.range' r.1 (r.2 + 1 - r.1)) =
        List.range' 1 total) ∧
    (∀ total : ℕ, ∀ r ∈ batchRanges total,
      1 ≤ r.1 ∧ r.1 ≤ r.2 ∧ r.2 = min (r.1 + 149) total) ∧
    batchRanges 320 = [(1, 150), (151, 300), (301, 320)] := by
  refine ⟨fun total => ?_, fun total r hr => ?_, ?_⟩
  · have h := batchRangesFrom_cover total (total + 1) 1 (by omega)
    simpa using h
  · have h := batchRangesFrom_mem total (total + 1) 1 r (by omega) hr
    exact h
  · rw [batchRanges]
    rw [batchRangesFrom, dif_pos (by norm_num)]
    rw [batchRangesFrom, dif_pos (by norm_num)]
    rw [batchRangesFrom, dif_pos (by norm_num)]
    rw [batchRangesFrom, dif_neg (by norm_num)]
    norm_num

theorem C2_numeric_id_ranges_partition_witness :
    1 ≤ ((1, 150) : ℕ × ℕ).1 ∧ ((1, 150) : ℕ × ℕ).1 ≤ ((1, 150) : ℕ × ℕ).2 ∧
      ((1, 150) : ℕ × ℕ).2 = min (((1, 150) : ℕ × ℕ).1 + 149) 320 :=
  C2_numeric_id_ranges_partition.2.1 320 (1, 150)
    (by rw [C2_numeric_id_ranges_partition.2.2]; simp)

/-- C4: classification is deterministic and reproducible from the stated
formulas — on the input `[10,20,30,40,50]` with 5 classes, the Quantile
method (linearly interpolated percentiles with the final break forced to the
maximum) and the Equal-Interval method (`min + interval·i`,
`interval = (max−min)/classCount`) both return exactly `[18,26,34,42,50]`. -/
theorem C4_classification_reproducible :
    classify_data [10, 20, 30, 40, 50] "Quantile" 5 = some [18, 26, 34, 42, 50] ∧
    classify_data [10, 20, 30, 40, 50] "Equal Interval" 5 = some [18, 26, 34, 42, 50] := by
  constructor
  · norm_num [classify_data, quantileBreaks, collectPercentiles, percentileLinear, sortData,
      insertSorted, nthOr, List.range', List.max?]
    simp
    norm_num
  · rw [classify_data, if_neg (by decide), if_pos rfl]
    norm_num [equalIntervalBreaks, sortData, insertSorted, List.min?, List.max?, List.range_succ]

/-- C9 counterexample: contrary to the claim, `classify` on the empty input
does not return a zero-length break sequence — the Quantile branch raises
(modelled as `none`), because `np.percentile` and `max` reject an empty
sequence. -/
theorem C9_counterexample_empty_input_raises :
    classify_data [] "Quantile" 5 ≠ some [] ∧ classify_data [] "Quantile" 5 = none := by
  have h : classify_data [] "Quantile" 5 = none := by
    norm_num [classify_data, quantileBreaks, collectPercentiles, percentileLinear, sortData,
      List.range', List.max?]
  exact ⟨by rw [h]; simp, h⟩

/-- C9 amended: on the empty input sequence, `classify` raises for every
method name and class count (modelled: returns `none`), rather than
returning a zero-length break sequence; the fallback part of the claim holds:
an unknown method name falls through to the Quantile computation. -/
theorem C9_amended_empty_raises_and_fallback :
    (∀ (method : String) (k : ℕ), classify_data [] method k = none) ∧
    (∀ (data : List ℚ) (k : ℕ) (method : String),
      method ≠ "Quantile" → method ≠ "Equal Interval" →
      method ≠ "Natural Breaks (Jenks)" →
      classify_data data method k = quantileBreaks data k) := by
  constructor
  · intro method k
    have hq : quantileBreaks [] k = none := by
      rcases hc : collectPercentiles (sortData []) k (List.range' 1 (k - 1)) with _ | bs <;>
        simp [quantileBreaks, sortData, List.max?, hc]
    rw [classify_data]
    split
    · exact hq
    · split
      · simp [equalIntervalBreaks, sortData, List.min?, List.max?]
      · split
        · simp [jenksBreaks, sortData, List.max?]
        · exact hq
  · intro data k method h1 h2 h3
    rw [classify_data, if_neg h1, if_neg h2, if_neg h3]

theorem C9_amended_empty_raises_and_fallback_witness :
    classify_data [] "Quantile" 5 = none ∧
      classify_data [1] "Foo" 2 = quantileBreaks [1] 2 :=
  ⟨C9_amended_empty_raises_and_fallback.1 "Quantile" 5,
    C9_amended_empty_raises_and_fallback.2 [1] 2 "Foo" (by decide) (by decide) (by decide)⟩

/-- C3 counterexample: the code does not implement the rule as the spec words
it.  At the interior point `(5,5)` of the square ring the spec's toggle rule
(vertical edges always toggle when `y` is strictly between the y-extremes,
with no `x ≤ max(p1x,p2x)` prefilter) toggles on *both* vertical edges and
reports the point outside, while the code reports it inside — so the code's
toggle condition is not the one the claim describes. -/
theorem C3_counterexample_spec_rule_disagrees :
    pointInPolygonSpecRule 5 5 squareRing = false ∧
      point_in_polygon 5 5 squareRing = true := by
  constructor
  · norm_num [pointInPolygonSpecRule, polyEdges, edgeTogglesSpec, squareRing,
      List.min?, List.max?, min_def, max_def, List.countP_cons]
  · norm_num [point_in_polygon, polyEdges, edgeToggles, squareRing,
      List.min?, List.max?, min_def, max_def]

/-- C3 amended: after the bounding-box prefilter, the code toggles for each
edge where the point's `y` lies strictly above the lower y-extreme and *at or
below* the upper y-extreme (not strictly between), the point's `x` is at or
left of the edge's larger x-coordinate, and the point's `x` is at or left of
the ray-edge x-intersection (vertical edges passing that last test
unconditionally); the point is inside iff the number of toggling edges is
odd.  On the square ring `(5,5)` is inside, `(15,15)` is outside, and the
boundary point `(0,5)` deterministically reports outside. -/
theorem C3_amended_ray_cast_parity :
    (∀ (x y : ℚ) (poly : List (ℚ × ℚ)),
      point_in_polygon x y poly = pointInPolygonParity x y poly) ∧
    point_in_polygon 5 5 squareRing = true ∧
    point_in_polygon 15 15 squareRing = false ∧
    point_in_polygon 0 5 squareRing = false := by
  refine ⟨fun x y poly => ?_, ?_, ?_, ?_⟩
  · simp only [point_in_polygon, pointInPolygonParity]
    split
    · rfl
    · split
      · rfl
      · rw [foldl_toggle (edgeToggles x y)]
        simp
  · norm_num [point_in_polygon, polyEdges, edgeToggles, squareRing,
      List.min?, List.max?, min_def, max_def]
  · norm_num [point_in_polygon, polyEdges, edgeToggles, squareRing,
      List.min?, List.max?, min_def, max_def]
  · norm_num [point_in_polygon, polyEdges, edgeToggles, squareRing,
      List.min?, List.max?, min_def, max_def]

/-- C8 counterexample: a record yielding multiple rings is *not* always
emitted as a `MultiPolygon`.  With one valid 4-point ring and one degenerate
3-point ring, the degenerate ring is dropped, exactly one candidate survives,
and the code emits a `Polygon` — not the `MultiPolygon` the claim
prescribes. -/
theorem C8_counterexample_single_survivor_is_polygon :
    convert_arcgis_geometry_to_geojson (fun p : ℤ × ℤ => p)
        (some [[(0, 0), (0, 1), (1, 1), (0, 0)], [(2, 2), (2, 3), (3, 3)]]) =
      GeoGeometry.polygon [[(0, 0), (0, 1), (1, 1), (0, 0)]] ∧
    convert_arcgis_geometry_to_geojson (fun p : ℤ × ℤ => p)
        (some [[(0, 0), (0, 1), (1, 1), (0, 0)], [(2, 2), (2, 3), (3, 3)]]) ≠
      GeoGeometry.multiPolygon [[[(0, 0), (0, 1), (1, 1), (0, 0)]]] := by
  constructor <;> decide

/-- C1: for both acquisition strategies, acquisition over partitions tolerates
partial failure.  For numeric-ID batching, the harvested features are exactly
the concatenation of the successful batches' features, the stats counters
report the number of failed (and successful) partitions, and the call fails
iff zero records were obtained.  For partition-key batching on a cache miss
with a non-empty partition list, the stats counters report the failed and
successful partitions, the call fails iff zero records were obtained across
all partitions, and on success the stored collection is the conversion of
the union of the successful partitions' records. -/
theorem C1_partial_failure_tolerance :
    (∀ (F : Type) (total : ℕ) (net : ℕ × ℕ → ℕ → ApiResp F), 0 < total →
      (load_counties_data total net).features =
          ((batchRanges total).filterMap (fun r => (runBatch (net r)).outcome)).flatten ∧
      (load_counties_data total net).stats.failed =
          (batchRanges total).countP (fun r => (runBatch (net r)).outcome.isNone) ∧
      (load_counties_data total net).stats.succeeded =
          (batchRanges total).countP (fun r => (runBatch (net r)).outcome.isSome) ∧
      ((load_counties_data total net).success = true ↔
          ((batchRanges total).filterMap (fun r => (runBatch (net r)).outcome)).flatten ≠ [])) ∧
    (∀ (F G : Type) (env : RegionEnv F G) (st : MgrState G) (region : String),
      st.countiesByRegion.lookup region = none →
      (getStatesInRegion env.regions region).isEmpty = false →
      (stateFipsCodes env.statesData (getStatesInRegion env.regions region)).isEmpty = false →
      (load_counties_for_region env st region).stats.failed =
          (stateFipsCodes env.statesData (getStatesInRegion env.regions region)).countP
            (fun f => (regionResp (env.net f 0)).isNone) ∧
      (load_counties_for_region env st region).stats.succeeded =
          (stateFipsCodes env.statesData (getStatesInRegion env.regions region)).countP
            (fun f => (regionResp (env.net f 0)).isSome) ∧
      ((load_counties_for_region env st region).success = true ↔
          ((stateFipsCodes env.statesData (getStatesInRegion env.regions region)).filterMap
            (fun f => regionResp (env.net f 0))).flatten ≠ []) ∧
      ((load_counties_for_region env st region).success = true →
        (load_counties_for_region env st region).state.countiesData =
          some (env.conv
            (((stateFipsCodes env.statesData (getStatesInRegion env.regions region)).filterMap
              (fun f => regionResp (env.net f 0))).flatten)))) := by
  constructor
  · intro F total net hpos
    have hstep := collectLoop_eq (fun r => (runBatch (net r)).outcome) (batchRanges total) [] 0 0
    simp only [List.nil_append, Nat.zero_add] at hstep
    rw [load_counties_data, if_neg (by omega)]
    simp only [hstep]
    by_cases he :
        ((batchRanges total).filterMap fun r => (runBatch (net r)).outcome).flatten = []
    · simp [he]
    · simp [he, List.isEmpty_eq_false_iff_exists_mem.mpr
        (List.exists_mem_of_ne_nil _ he)]
  · intro F G env st region hmiss hstates hfips
    have hstep := collectLoop_eq (fun f => regionResp (env.net f 0))
      (stateFipsCodes env.statesData (getStatesInRegion env.regions region)) [] 0 0
    simp only [List.nil_append, Nat.zero_add] at hstep
    rw [region_load_miss_eq env st region hmiss]
    rw [if_neg (by simp [hstates]), if_neg (by simp [hfips])]
    rw [regionFetchLoop, hstep]
    by_cases he :
        ((stateFipsCodes env.statesData (getStatesInRegion env.regions region)).filterMap
          fun f => regionResp (env.net f 0)).flatten = []
    · simp [he]
    · simp [he, List.isEmpty_eq_false_iff_exists_mem.mpr
        (List.exists_mem_of_ne_nil _ he)]

theorem C1_partial_failure_tolerance_witness :
    ((load_counties_data 1 (fun _ _ => ApiResp.ok [5])).features =
        ((batchRanges 1).filterMap
          (fun r => (runBatch ((fun _ _ => ApiResp.ok [5] : ℕ × ℕ → ℕ → ApiResp ℕ) r)).outcome)).flatten ∧
      (load_counties_data 1 (fun _ _ => ApiResp.ok [5])).stats.failed =
        (batchRanges 1).countP
          (fun r => (runBatch ((fun _ _ => ApiResp.ok [5] : ℕ × ℕ → ℕ → ApiResp ℕ) r)).outcome.isNone) ∧
      (load_counties_data 1 (fun _ _ => ApiResp.ok [5])).stats.succeeded =
        (batchRanges 1).countP
          (fun r => (runBatch ((fun _ _ => ApiResp.ok [5] : ℕ × ℕ → ℕ → ApiResp ℕ) r)).outcome.isSome) ∧
      ((load_counties_data 1 (fun _ _ => ApiResp.ok [5])).success = true ↔
        ((batchRanges 1).filterMap
          (fun r => (runBatch ((fun _ _ => ApiResp.ok [5] : ℕ × ℕ → ℕ → ApiResp ℕ) r)).outcome)).flatten ≠ [])) ∧
    ((load_counties_for_region okEnv mgr0 "West").stats.failed =
        (stateFipsCodes okEnv.statesData (getStatesInRegion okEnv.regions "West")).countP
          (fun f => (regionResp (okEnv.net f 0)).isNone) ∧
      (load_counties_for_region okEnv mgr0 "West").stats.succeeded =
        (stateFipsCodes okEnv.statesData (getStatesInRegion okEnv.regions "West")).countP
          (fun f => (regionResp (okEnv.net f 0)).isSome) ∧
      ((load_counties_for_region okEnv mgr0 "West").success = true ↔
        ((stateFipsCodes okEnv.statesData (getStatesInRegion okEnv.regions "West")).filterMap
          (fun f => regionResp (okEnv.net f 0))).flatten ≠ []) ∧
      ((load_counties_for_region okEnv mgr0 "West").success = true →
        (load_counties_for_region okEnv mgr0 "West").state.countiesData =
          some (okEnv.conv
            (((stateFipsCodes okEnv.statesData (getStatesInRegion okEnv.regions "West")).filterMap
              (fun f => regionResp (okEnv.net f 0))).flatten)))) :=
  ⟨C1_partial_failure_tolerance.1 ℕ 1 (fun _ _ => ApiResp.ok [5]) (by decide),
    C1_partial_failure_tolerance.2 ℕ (List ℕ) okEnv mgr0 "West" (by decide) (by decide)
      (by decide)⟩

/-- C5 counterexample: the per-batch retry policy does not apply to the
partition-key strategy.  With responses that time out on attempt 0 and
succeed on any later attempt, the numeric strategy's retry loop recovers the
records (`runBatch` yields `some [7]`), but `load_counties_for_region` issues
exactly one request for its single partition, marks it failed, and fails
overall — the partition is marked failed without any retry. -/
theorem C5_counterexample_region_strategy_has_no_retry :
    (runBatch (fun n => if n = 0 then ApiResp.timeout else ApiResp.ok [7])).outcome
        = some [7] ∧
    (load_counties_for_region retryEnv mgr0 "West").requests = [("06", 0)] ∧
    (load_counties_for_region retryEnv mgr0 "West").stats.failed = 1 ∧
    (load_counties_for_region retryEnv mgr0 "West").success = false := by
  refine ⟨?_, by decide, by decide, by decide⟩
  simp [runBatch, runBatchGo]

/-- C5 amended: the retry policy belongs to the numeric-ID strategy only.
There, a batch whose response carries features on the first attempt succeeds
at once; a retryable failure (error response, timeout, transport failure,
unexpected exception) followed by a features-bearing response succeeds on the
retry after one back-off sleep; three consecutive retryable failures exhaust
the 3 total attempts, with a fixed back-off of 1 or 2 time units between
consecutive attempts, and only then is the batch marked failed.  In the
partition-key strategy every partition is attempted exactly once, at attempt
index 0 — there is no retry. -/
theorem C5_amended_retry_only_in_numeric_strategy :
    (∀ (F : Type) (resp : ℕ → ApiResp F) (fs : List F),
      resp 0 = ApiResp.ok fs → fs ≠ [] →
      (runBatch resp).outcome = some fs ∧ (runBatch resp).attempts = [0]) ∧
    (∀ (F : Type) (resp : ℕ → ApiResp F) (fs : List F),
      retryable (resp 0) = true → resp 1 = ApiResp.ok fs → fs ≠ [] →
      (runBatch resp).outcome = some fs ∧ (runBatch resp).attempts = [0, 1] ∧
      (runBatch resp).sleeps.length = 1) ∧
    (∀ (F : Type) (resp : ℕ → ApiResp F),
      retryable (resp 0) = true → retryable (resp 1) = true → retryable (resp 2) = true →
      (runBatch resp).outcome = none ∧ (runBatch resp).attempts = [0, 1, 2] ∧
      (runBatch resp).sleeps.length = 2 ∧
      ∀ s ∈ (runBatch resp).sleeps, s = 1 ∨ s = 2) ∧
    (∀ (F G : Type) (env : RegionEnv F G) (st : MgrState G) (region : String),
      (load_counties_for_region env st region).requests = [] ∨
      (load_counties_for_region env st region).requests =
        (stateFipsCodes env.statesData (getStatesInRegion env.regions region)).map
          (fun f => (f, 0))) := by
  refine ⟨?_, ?_, ?_, ?_⟩
  · intro F resp fs h0 hfs
    have : fs.isEmpty = false := by
      cases fs
      · exact absurd rfl hfs
      · rfl
    simp [runBatch, runBatchGo, h0, this]
  · intro F resp fs h0 h1 hfs
    have hne : fs.isEmpty = false := by
      cases fs
      · exact absurd rfl hfs
      · rfl
    cases c0 : resp 0 <;> rw [c0] at h0 <;> simp [retryable] at h0 <;>
      simp [runBatch, runBatchGo, c0, h1, hne]
  · intro F resp h0 h1 h2
    cases c0 : resp 0 <;> rw [c0] at h0 <;> simp [retryable] at h0 <;>
      cases c1 : resp 1 <;> rw [c1] at h1 <;> simp [retryable] at h1 <;>
      cases c2 : resp 2 <;> rw [c2] at h2 <;> simp [retryable] at h2 <;>
      simp [runBatch, runBatchGo, c0, c1, c2]
  · intro F G env st region
    rcases hl : st.countiesByRegion.lookup region with _ | fc
    · rw [region_load_miss_eq env st region hl]
      by_cases h2 : (getStatesInRegion env.regions region).isEmpty = true
      · rw [if_pos h2]; left; rfl
      · rw [if_neg h2]
        by_cases h3 : (stateFipsCodes env.statesData
            (getStatesInRegion env.regions region)).isEmpty = true
        · rw [if_pos h3]; left; rfl
        · rw [if_neg h3]
          by_cases h4 : (regionFetchLoop env.net (stateFipsCodes env.statesData
              (getStatesInRegion env.regions region))).1.isEmpty = true
          · rw [if_pos h4]; right; rfl
          · rw [if_neg h4]; right; rfl
    · rw [region_load_hit_eq env st region fc hl]; left; rfl

theorem C5_amended_retry_only_in_numeric_strategy_witness :
    ((runBatch (fun _ => ApiResp.ok [3])).outcome = some [3] ∧
      (runBatch (fun _ => ApiResp.ok [3])).attempts = [0]) ∧
    ((runBatch (fun n => if n = 0 then ApiResp.timeout else ApiResp.ok [4])).outcome
        = some [4] ∧
      (runBatch (fun n => if n = 0 then ApiResp.timeout else ApiResp.ok [4])).attempts
        = [0, 1] ∧
      (runBatch (fun n => if n = 0 then ApiResp.timeout else ApiResp.ok [4])).sleeps.length
        = 1) ∧
    ((runBatch (fun _ => (ApiResp.timeout : ApiResp ℕ))).outcome = none ∧
      (runBatch (fun _ => (ApiResp.timeout : ApiResp ℕ))).attempts = [0, 1, 2] ∧
      (runBatch (fun _ => (ApiResp.timeout : ApiResp ℕ))).sleeps.length = 2 ∧
      ∀ s ∈ (runBatch (fun _ => (ApiResp.timeout : ApiResp ℕ))).sleeps, s = 1 ∨ s = 2) :=
  ⟨C5_amended_retry_only_in_numeric_strategy.1 ℕ (fun _ => ApiResp.ok [3]) [3] rfl
      (by simp),
    C5_amended_retry_only_in_numeric_strategy.2.1 ℕ
      (fun n => if n = 0 then ApiResp.timeout else ApiResp.ok [4]) [4] rfl rfl (by simp),
    C5_amended_retry_only_in_numeric_strategy.2.2.1 ℕ
      (fun _ => (ApiResp.timeout : ApiResp ℕ)) rfl rfl rfl⟩

/-- C6 counterexample: the cache does store partial results.  With one of the
West region's two partitions timing out and the other yielding a record, the
call succeeds, reports `failed = 1`, and a cache entry for "West" exists even
though a partition failed — contradicting "a cache entry exists only after an
acquisition in which no partition failed". -/
theorem C6_counterexample_partial_result_is_cached :
    (load_counties_for_region mixedEnv mgr0 "West").success = true ∧
    (load_counties_for_region mixedEnv mgr0 "West").stats.failed = 1 ∧
    (load_counties_for_region mixedEnv mgr0 "West").state.countiesByRegion.lookup "West"
        = some [7] := by
  refine ⟨by decide, by decide, by decide⟩

/-- C6 amended: on a cache miss, a failed acquisition (zero records obtained,
or no partitions to query) propagates the failure and leaves the manager
state — in particular the cache — unchanged; a successful acquisition (at
least one record, regardless of how many partitions failed) stores the
converted collection under the region key. -/
theorem C6_amended_only_failures_not_cached :
    ∀ (F G : Type) (env : RegionEnv F G) (st : MgrState G) (region : String),
      st.countiesByRegion.lookup region = none →
      ((load_counties_for_region env st region).success = false →
        (load_counties_for_region env st region).state = st) ∧
      ((load_counties_for_region env st region).success = true →
        (load_counties_for_region env st region).state.countiesByRegion =
          st.countiesByRegion ++
            [(region, env.conv (regionFetchLoop env.net (stateFipsCodes env.statesData
              (getStatesInRegion env.regions region))).1)] ∧
        (load_counties_for_region env st region).state.countiesByRegion.lookup region =
          some (env.conv (regionFetchLoop env.net (stateFipsCodes env.statesData
            (getStatesInRegion env.regions region))).1)) := by
  intro F G env st region hmiss
  rw [region_load_miss_eq env st region hmiss]
  by_cases h2 : (getStatesInRegion env.regions region).isEmpty = true
  · rw [if_pos h2]
    exact ⟨fun _ => rfl, fun h => nomatch h⟩
  · rw [if_neg h2]
    by_cases h3 : (stateFipsCodes env.statesData
        (getStatesInRegion env.regions region)).isEmpty = true
    · rw [if_pos h3]
      exact ⟨fun _ => rfl, fun h => nomatch h⟩
    · rw [if_neg h3]
      by_cases h4 : (regionFetchLoop env.net (stateFipsCodes env.statesData
          (getStatesInRegion env.regions region))).1.isEmpty = true
      · rw [if_pos h4]
        exact ⟨fun _ => rfl, fun h => nomatch h⟩
      · rw [if_neg h4]
        constructor
        · intro h
          exact absurd h (by simp)
        · intro _
          exact ⟨rfl, lookup_append_of_none region _ st.countiesByRegion hmiss⟩

theorem C6_amended_only_failures_not_cached_witness :
    ((load_counties_for_region okEnv mgr0 "West").success = false →
      (load_counties_for_region okEnv mgr0 "West").state = mgr0) ∧
    ((load_counties_for_region okEnv mgr0 "West").success = true →
      (load_counties_for_region okEnv mgr0 "West").state.countiesByRegion =
        mgr0.countiesByRegion ++
          [("West", okEnv.conv (regionFetchLoop okEnv.net (stateFipsCodes okEnv.statesData
            (getStatesInRegion okEnv.regions "West"))).1)] ∧
      (load_counties_for_region okEnv mgr0 "West").state.countiesByRegion.lookup "West" =
        some (okEnv.conv (regionFetchLoop okEnv.net (stateFipsCodes okEnv.statesData
          (getStatesInRegion okEnv.regions "West"))).1)) :=
  C6_amended_only_failures_not_cached ℕ (List ℕ) okEnv mgr0 "West" (by decide)

/-- C7: the region cache is idempotent.  On a cache miss followed by a
successful load, the first call issues exactly one request per partition and
stores the converted collection under the region key; a second call for the
same key — under an arbitrary environment, even one with a different feature
type — issues no request at all and returns exactly the stored collection,
leaving the cache unchanged. -/
theorem C7_region_cache_idempotent :
    ∀ (F F2 G : Type) (env : RegionEnv F G) (env2 : RegionEnv F2 G) (st : MgrState G)
      (region : String),
      st.countiesByRegion.lookup region = none →
      (load_counties_for_region env st region).success = true →
      (load_counties_for_region env st region).requests =
        (stateFipsCodes env.statesData (getStatesInRegion env.regions region)).map
          (fun f => (f, 0)) ∧
      (load_counties_for_region env st region).state.countiesByRegion.lookup region =
        (load_counties_for_region env st region).state.countiesData ∧
      (load_counties_for_region env2
          (load_counties_for_region env st region).state region).success = true ∧
      (load_counties_for_region env2
          (load_counties_for_region env st region).state region).requests = [] ∧
      (load_counties_for_region env2
          (load_counties_for_region env st region).state region).state.countiesData =
        (load_counties_for_region env st region).state.countiesData ∧
      (load_counties_for_region env2
          (load_counties_for_region env st region).state region).state.countiesByRegion =
        (load_counties_for_region env st region).state.countiesByRegion := by
  intro F F2 G env env2 st region hmiss h1
  rw [region_load_miss_eq env st region hmiss] at h1 ⊢
  by_cases h2 : (getStatesInRegion env.regions region).isEmpty = true
  · rw [if_pos h2] at h1; cases h1
  · rw [if_neg h2] at h1 ⊢
    by_cases h3 : (stateFipsCodes env.statesData
        (getStatesInRegion env.regions region)).isEmpty = true
    · rw [if_pos h3] at h1; cases h1
    · rw [if_neg h3] at h1 ⊢
      by_cases h4 : (regionFetchLoop env.net (stateFipsCodes env.statesData
          (getStatesInRegion env.regions region))).1.isEmpty = true
      · rw [if_pos h4] at h1; cases h1
      · rw [if_neg h4] at h1 ⊢
        dsimp only
        have hlook := lookup_append_of_none region
          (env.conv (regionFetchLoop env.net (stateFipsCodes env.statesData
            (getStatesInRegion env.regions region))).1)
          st.countiesByRegion hmiss
        rw [region_load_hit_eq env2 _ region _ hlook]
        exact ⟨rfl, hlook, rfl, rfl, rfl, rfl⟩

theorem C7_region_cache_idempotent_witness :
    (load_counties_for_region okEnv mgr0 "West").requests =
      (stateFipsCodes okEnv.statesData (getStatesInRegion okEnv.regions "West")).map
        (fun f => (f, 0)) ∧
    (load_counties_for_region okEnv mgr0 "West").state.countiesByRegion.lookup "West" =
      (load_counties_for_region okEnv mgr0 "West").state.countiesData ∧
    (load_counties_for_region okEnv
        (load_counties_for_region okEnv mgr0 "West").state "West").success = true ∧
    (load_counties_for_region okEnv
        (load_counties_for_region okEnv mgr0 "West").state "West").requests = [] ∧
    (load_counties_for_region okEnv
        (load_counties_for_region okEnv mgr0 "West").state "West").state.countiesData =
      (load_counties_for_region okEnv mgr0 "West").state.countiesData ∧
    (load_counties_for_region okEnv
        (load_counties_for_region okEnv mgr0 "West").state "West").state.countiesByRegion =
      (load_counties_for_region okEnv mgr0 "West").state.countiesByRegion :=
  C7_region_cache_idempotent ℕ ℕ (List ℕ) okEnv okEnv mgr0 "West" (by decide) (by decide)

/-- C8 amended: a record yielding exactly one ring is emitted as a `Polygon`
with that one ring, unfiltered even if degenerate; a record yielding several
rings has its degenerate rings (fewer than 4 points) silently dropped, and
the result is a `MultiPolygon` of independent single-ring polygons unless
exactly one ring survives the filter, in which case a `Polygon` with that
single ring is emitted instead (an empty or absent `rings` entry yields an
empty `Polygon`). -/
theorem C8_amended_ring_policy :
    ∀ (P Q : Type) (proj : P → Q) (rings : List (List P)),
      convert_arcgis_geometry_to_geojson proj (none : Option (List (List P))) =
        GeoGeometry.polygon [] ∧
      convert_arcgis_geometry_to_geojson proj (some rings) =
        (if rings.length = 1 then
          GeoGeometry.polygon (rings.map (fun r => r.map proj))
        else
          let kept := (rings.map (fun r => r.map proj)).filter
            (fun r => decide (4 ≤ r.length))
          if kept.length = 1 then GeoGeometry.polygon [kept.headD []]
          else GeoGeometry.multiPolygon (kept.map (fun r => [r]))) := by
  intro P Q proj rings
  refine ⟨rfl, ?_⟩
  rw [convert_arcgis_geometry_to_geojson]
  simp only [List.length_map]
  split
  · rfl
  · rw [filterMap_wrap]
    simp only [List.length_map]
    split
    · rename_i hone
      obtain ⟨a, ha⟩ := List.length_eq_one.mp hone
      simp [ha]
    · rfl

/-- C10: the projector maps planar coordinates to geographic degrees by
`lon = (x/R)·(180/π)` and `lat = (2·atan(exp(y/R)) − π/2)·(180/π)` with
`R = 6378137`; it sends the origin to `(0, 0)`; for every `x` within the
projection's world extent (`|x| ≤ π·R`) the longitude lies in `[-180, 180]`;
the latitude always lies in `[-90, 90]`; and for every fixed `x` the latitude
is strictly monotonic in `y`. -/
theorem C10_projector_formulas :
    web_mercator_to_latlon 0 0 = (0, 0) ∧
    (∀ x y : ℝ, |x| ≤ Real.pi * earthRadius →
      -180 ≤ (web_mercator_to_latlon x y).1 ∧ (web_mercator_to_latlon x y).1 ≤ 180) ∧
    (∀ x y : ℝ,
      -90 ≤ (web_mercator_to_latlon x y).2 ∧ (web_mercator_to_latlon x y).2 ≤ 90) ∧
    (∀ x y₁ y₂ : ℝ, y₁ < y₂ →
      (web_mercator_to_latlon x y₁).2 < (web_mercator_to_latlon x y₂).2) := by
  have hR : (0 : ℝ) < earthRadius := by norm_num [earthRadius]
  have hpi := Real.pi_pos
  have hc : (0 : ℝ) < 180 / Real.pi := by positivity
  refine ⟨?_, ?_, ?_, ?_⟩
  · rw [web_mercator_to_latlon]
    rw [Prod.mk.injEq]
    constructor
    · rw [zero_div, zero_mul]
    · rw [zero_div, Real.exp_zero, Real.arctan_one]
      have h0 : 2 * (Real.pi / 4) - Real.pi / 2 = 0 := by ring
      rw [h0, zero_mul]
  · intro x y hx
    have habs : |x / earthRadius * (180 / Real.pi)| ≤ 180 := by
      rw [abs_mul, abs_div, abs_div, abs_of_pos hR, abs_of_pos hpi]
      have h180 : |(180 : ℝ)| = 180 := by norm_num
      rw [h180]
      have h2 : |x| / earthRadius ≤ Real.pi := by
        rw [div_le_iff₀ hR]
        exact hx
      have h3 : |x| / earthRadius * (180 / Real.pi) ≤ Real.pi * (180 / Real.pi) :=
        mul_le_mul_of_nonneg_right h2 (le_of_lt hc)
      have h4 : Real.pi * (180 / Real.pi) = 180 := by
        field_simp
      rw [h4] at h3
      exact h3
    have := abs_le.mp habs
    exact ⟨this.1, this.2⟩
  · intro x y
    have he : 0 < Real.exp (y / earthRadius) := Real.exp_pos _
    have ha1 : 0 < Real.arctan (Real.exp (y / earthRadius)) := by
      have hm := Real.arctan_strictMono he
      rwa [Real.arctan_zero] at hm
    have ha2 : Real.arctan (Real.exp (y / earthRadius)) < Real.pi / 2 :=
      Real.arctan_lt_pi_div_two _
    have hlow : -(Real.pi / 2) * (180 / Real.pi) ≤
        (2 * Real.arctan (Real.exp (y / earthRadius)) - Real.pi / 2) * (180 / Real.pi) :=
      mul_le_mul_of_nonneg_right (by linarith) (le_of_lt hc)
    have hhigh : (2 * Real.arctan (Real.exp (y / earthRadius)) - Real.pi / 2) *
          (180 / Real.pi) ≤ Real.pi / 2 * (180 / Real.pi) :=
      mul_le_mul_of_nonneg_right (by linarith) (le_of_lt hc)
    have hl : -(Real.pi / 2) * (180 / Real.pi) = -90 := by
      field_simp
      ring
    have hh : Real.pi / 2 * (180 / Real.pi) = 90 := by
      field_simp
      ring
    rw [hl] at hlow
    rw [hh] at hhigh
    exact ⟨hlow, hhigh⟩
  · intro x y₁ y₂ hy
    have h1 : y₁ / earthRadius < y₂ / earthRadius := by
      rw [div_lt_div_iff₀ hR hR]
      nlinarith
    have h2 : Real.exp (y₁ / earthRadius) < Real.exp (y₂ / earthRadius) :=
      Real.exp_lt_exp.mpr h1
    have h3 : Real.arctan (Real.exp (y₁ / earthRadius)) <
        Real.arctan (Real.exp (y₂ / earthRadius)) := Real.arctan_strictMono h2
    exact mul_lt_mul_of_pos_right (by linarith) hc

theorem C10_projector_formulas_witness :
    (-180 ≤ (web_mercator_to_latlon 0 5).1 ∧ (web_mercator_to_latlon 0 5).1 ≤ 180) ∧
    (web_mercator_to_latlon 0 0).2 < (web_mercator_to_latlon 0 1).2 :=
  ⟨C10_projector_formulas.2.1 0 5
      (by rw [abs_zero]
          exact mul_nonneg (le_of_lt Real.pi_pos) (by norm_num [earthRadius])),
    C10_projector_formulas.2.2.2 0 0 1 (by norm_num)⟩

end HW9
